import Mathlib

/-!
# Verification of the shekhai-server quiz subsystem

Shallow embedding of the quiz / quiz-attempt data model and operations of
the shekhai-server repository:

* `startQuizAttempt`, `submitQuizAttempt` from
  `src/controllers/quizAttemptController.js`;
* the `quizAttemptSchema.pre("save")` hook from the QuizAttempt model;
* `getQuizStatus`, `createQuiz`, `updateQuiz`, `publishQuiz`, `addQuestion`
  from `src/controllers/quizController.js`;
* the `quizSchema.pre("save")` totals hook from `src/models/Quiz.js`.

JavaScript numbers carrying scores are modelled as `Nat` (points) and `Rat`
(percentages); dates are modelled as `Int` timestamps; missing (undefined)
values as `Option`; a thrown exception caught by the controller's
`try/catch` is modelled as `Except.error`.
-/

namespace Shekhai

/-- Question types of the quiz question schema
(enum `single-choice | multiple-choice | true-false | short-answer`,
plus `essay` accepted by the older quiz schema). -/
inductive QType
  | singleChoice
  | multipleChoice
  | trueFalse
  | shortAnswer
  | essay
deriving DecidableEq

/-- An option of a choice question (`optionSchema`): its text and the
`isCorrect` flag. -/
structure QOption where
  text : String
  isCorrect : Bool
deriving DecidableEq

/-- A quiz question (`questionSchema`): subdocument id, question text, type,
options, the `correctAnswer` field (`none` models `undefined`), and points. -/
structure Question where
  qid : Nat
  text : String
  qtype : QType
  options : List QOption
  correctAnswer : Option String
  points : Nat
deriving DecidableEq

/-- The quiz document fields read by the attempt controller and
`getQuizStatus`: `passingScore`, `maxAttempts`, availability window,
questions, `isPublished`, `isActive`. Dates are `Int` timestamps;
`availableUntil` is optional. -/
structure Quiz where
  passingScore : Rat
  maxAttempts : Nat
  availableFrom : Int
  availableUntil : Option Int
  questions : List Question
  isPublished : Bool
  isActive : Bool
deriving DecidableEq

/-- A submitted answer from the request body: target question id, the
`selectedOptions` array (a missing array is normalised to `[]` by
`answer.selectedOptions || []`), and the optional `shortAnswer` string. -/
structure AnswerIn where
  questionId : Nat
  selectedOptions : List String
  shortAnswer : Option String
deriving DecidableEq

/-- A processed answer as stored on the attempt: grading outcome and points
earned, alongside the submitted data. -/
structure ProcessedAnswer where
  questionId : Nat
  selectedOptions : List String
  shortAnswer : Option String
  isCorrect : Bool
  pointsEarned : Nat
deriving DecidableEq

/-- Attempt status enum (`in-progress | completed | abandoned`). -/
inductive AStatus
  | inProgress
  | completed
  | abandoned
deriving DecidableEq

/-- A QuizAttempt document: the fields used by the attempt controller and the
attempt model's pre-save hook. -/
structure Attempt where
  attemptId : Nat
  quizId : Nat
  userId : Nat
  attemptNumber : Nat
  status : AStatus
  answers : List ProcessedAnswer
  score : Nat
  totalPoints : Nat
  percentage : Rat
  isPassed : Bool
deriving DecidableEq

/-- JavaScript `Math.round` on a non-negative rational: round half up,
`⌊q + 1/2⌋`. -/
def jsRound (q : Rat) : Int :=
  ⌊q + 1/2⌋

/-- JavaScript string truthiness for an optional string field:
`undefined` and the empty string are falsy. -/
def strTruthy : Option String → Bool
  | none => false
  | some s => s ≠ ""

/-- Model of `question.options.filter(opt => opt.isCorrect).map(opt => opt.text)`. -/
def correctOptionTexts (q : Question) : List String :=
  (q.options.filter (fun o => o.isCorrect)).map (fun o => o.text)

/-- The choice-question grading test of `submitQuizAttempt`:
`selectedOptions.length === correctOptions.length &&
 selectedOptions.every(opt => correctOptions.includes(opt))`. -/
def gradeChoice (q : Question) (selected : List String) : Bool :=
  selected.length == (correctOptionTexts q).length &&
    selected.all (fun s => (correctOptionTexts q).contains s)

/-- Model of `s.toLowerCase().trim()`. -/
def jsNormalize (s : String) : String :=
  s.toLower.trim

/-- Grade one answer against its question, as in the body of the answer loop
of `submitQuizAttempt`. For choice questions the selected option texts are
compared with the texts of options flagged `isCorrect`; for true-false and
short-answer questions `answer.shortAnswer?.toLowerCase().trim()` is compared
with `question.correctAnswer.toLowerCase().trim()` — which throws a
`TypeError` (modelled as `Except.error`) when `correctAnswer` is undefined.
Any other type leaves `isCorrect = false`, `pointsEarned = 0`. -/
def gradeAnswer (q : Question) (a : AnswerIn) : Except String (Bool × Nat) :=
  match q.qtype with
  | .singleChoice | .multipleChoice =>
      let ok := gradeChoice q a.selectedOptions
      .ok (ok, if ok then q.points else 0)
  | .trueFalse | .shortAnswer =>
      match q.correctAnswer with
      | none => .error "TypeError"
      | some ca =>
          let ok := match a.shortAnswer with
            | none => false
            | some s => jsNormalize s == jsNormalize ca
          .ok (ok, if ok then q.points else 0)
  | .essay => .ok (false, 0)

/-- Model of `quiz.questions.id(answer.questionId)`: look up a question subdocument by
its id. -/
def findQuestion (quiz : Quiz) (qid : Nat) : Option Question :=
  quiz.questions.find? (fun q => q.qid == qid)

/-- The answer-processing loop of `submitQuizAttempt`: answers whose
`questionId` matches no question are skipped (`if (!question) continue`);
the rest are graded and accumulated together with the running `totalScore`. -/
def processAnswers (quiz : Quiz) : List AnswerIn → Except String (List ProcessedAnswer × Nat)
  | [] => .ok ([], 0)
  | a :: rest =>
    match findQuestion quiz a.questionId with
    | none => processAnswers quiz rest
    | some q =>
        match gradeAnswer q a with
        | .error e => .error e
        | .ok (ok, pts) =>
            match processAnswers quiz rest with
            | .error e => .error e
            | .ok (ps, total) =>
                .ok ({ questionId := a.questionId
                       selectedOptions := a.selectedOptions
                       shortAnswer := a.shortAnswer
                       isCorrect := ok
                       pointsEarned := pts } :: ps,
                     pts + total)

/-- Sum of `pointsEarned` over an attempt's answers
(`this.answers.reduce((total, answer) => total + answer.pointsEarned, 0)`). -/
def earnedSum (answers : List ProcessedAnswer) : Nat :=
  (answers.map (fun a => a.pointsEarned)).sum

/-- The "quiz total points" computed by the attempt pre-save hook: for each
answer it looks up `this.answers.find(a => a.questionId.equals(answer.questionId))`
— the first answer with the same question id — and adds that answer's
`pointsEarned` (0 if none is found). -/
def hookPossible (answers : List ProcessedAnswer) : Nat :=
  (answers.map (fun a =>
    match answers.find? (fun b => b.questionId == a.questionId) with
    | some b => b.pointsEarned
    | none => 0)).sum

/-- The `quizAttemptSchema.pre("save")` hook: when the answer list is
non-empty it sets `totalPoints` to the earned-point sum, recomputes a
"total possible points" from the answers themselves (`hookPossible`), and —
when that is positive — overwrites `percentage` with
`Math.round((totalPoints / totalPossiblePoints) * 100)`. -/
def preSaveAttempt (att : Attempt) : Attempt :=
  if 0 < att.answers.length then
    let tp := earnedSum att.answers
    let possible := hookPossible att.answers
    let att1 := { att with totalPoints := tp }
    if 0 < possible then
      { att1 with percentage := (jsRound ((tp : Rat) / (possible : Rat) * 100) : Rat) }
    else att1
  else att

/-- Model of the lookup of an in-progress attempt for the pair. -/
def findInProgress (attempts : List Attempt) (quizId userId : Nat) : Option Attempt :=
  attempts.find? (fun a =>
    a.quizId == quizId && a.userId == userId && a.status == AStatus.inProgress)

/-- Model of the all-attempt query for the pair: every attempt of the user for the
quiz, regardless of status. -/
def attemptsFor (attempts : List Attempt) (quizId userId : Nat) : List Attempt :=
  attempts.filter (fun a => a.quizId == quizId && a.userId == userId)

/-- Persist a saved attempt back into the collection (same document id). -/
def replaceAttempt (attempts : List Attempt) (saved : Attempt) : List Attempt :=
  attempts.map (fun a => if a.attemptId == saved.attemptId then saved else a)

/-- Result of `startQuizAttempt`: an error response, resuming an existing
in-progress attempt, or a newly created attempt. -/
inductive StartResult
  | error (msg : String)
  | resumed (a : Attempt)
  | created (a : Attempt)
deriving DecidableEq

/-- Model of `startQuizAttempt` from `quizAttemptController.js`: 404 if the quiz is
missing; 400 if it is not active or not published; 400 once the user's
attempt count has reached `maxAttempts`; otherwise resume an existing
in-progress attempt, or create attempt number `previousAttempts.length + 1`
(creation runs the attempt pre-save hook). Returns the result together with
the resulting attempt collection. The current time is not an input: the
controller never reads the clock. -/
def startQuizAttempt (attempts : List Attempt) (quiz? : Option Quiz)
    (quizId userId newId : Nat) : StartResult × List Attempt :=
  match quiz? with
  | none => (.error "Quiz not found", attempts)
  | some quiz =>
    if !quiz.isActive || !quiz.isPublished then
      (.error "Quiz is not available", attempts)
    else
      let previous := attemptsFor attempts quizId userId
      if quiz.maxAttempts ≤ previous.length then
        (.error ("Maximum attempts (" ++ toString quiz.maxAttempts ++
                 ") reached for this quiz"), attempts)
      else
        match findInProgress attempts quizId userId with
        | some a => (.resumed a, attempts)
        | none =>
            let a := preSaveAttempt
              { attemptId := newId
                quizId := quizId
                userId := userId
                attemptNumber := previous.length + 1
                status := .inProgress
                answers := []
                score := 0
                totalPoints := 0
                percentage := 0
                isPassed := false }
            (.created a, attempts ++ [a])

/-- Model of `submitQuizAttempt` from `quizAttemptController.js`: 404 if no
in-progress attempt exists for the (quiz, user) pair, 404 if the quiz is
missing; otherwise grade the answers, set `score`, `percentage`
(`totalScore / totalPoints * 100`, or 0 when the quiz's point total is 0)
and `isPassed` (`percentage >= quiz.passingScore`), save the attempt as
`completed` (running the attempt pre-save hook), and respond with the saved
attempt and `Math.round(attempt.percentage)` as the summary percentage. -/
def submitQuizAttempt (attempts : List Attempt) (quiz? : Option Quiz)
    (quizId userId : Nat) (answers : List AnswerIn) :
    Except String (List Attempt × Attempt × Int) :=
  match findInProgress attempts quizId userId with
  | none => .error "No active quiz attempt found"
  | some att =>
    match quiz? with
    | none => .error "Quiz not found"
    | some quiz =>
      match processAnswers quiz answers with
      | .error e => .error e
      | .ok (ps, totalScore) =>
          let possible := (quiz.questions.map (fun q => q.points)).sum
          let pct : Rat :=
            if 0 < possible then (totalScore : Rat) / (possible : Rat) * 100 else 0
          let att1 : Attempt :=
            { att with
              answers := ps
              status := .completed
              score := totalScore
              percentage := pct
              isPassed := decide (quiz.passingScore ≤ pct) }
          let saved := preSaveAttempt att1
          .ok (replaceAttempt attempts saved, saved, jsRound saved.percentage)

/-- Model of `getQuizStatus` from `quizController.js`: `disabled` if inactive, else
`draft` if unpublished, else `scheduled` if `now < availableFrom`, else
`expired` if `availableUntil` is set and `now > availableUntil`, else
`active`. -/
def getQuizStatus (quiz : Quiz) (now : Int) : String :=
  if !quiz.isActive then "disabled"
  else if !quiz.isPublished then "draft"
  else if now < quiz.availableFrom then "scheduled"
  else
    match quiz.availableUntil with
    | some u => if u < now then "expired" else "active"
    | none => "active"

/-- The quiz document fields used by `createQuiz` / `updateQuiz` /
`publishQuiz` / `addQuestion` and the quiz totals hook: the question list,
the stored `totalQuestions` / `totalPoints`, the publish flag and timestamp,
and the availability dates. -/
structure QuizDoc where
  questions : List Question
  totalQuestions : Nat
  totalPoints : Nat
  isPublished : Bool
  publishedAt : Option Int
  availableFrom : Int
  availableUntil : Option Int
deriving DecidableEq

/-- The `quizSchema.pre("save")` hook of `src/models/Quiz.js`: recompute
`totalQuestions = questions.length` and `totalPoints = sum of points`
whenever the document is saved. -/
def quizPreSave (q : QuizDoc) : QuizDoc :=
  { q with
    totalQuestions := q.questions.length
    totalPoints := (q.questions.map (fun qq => qq.points)).sum }

/-- Model of `createQuiz` from `quizController.js` (course lookup elided): an
undefined or invalid date is `none` (`new Date(undefined)` is an Invalid
Date); creation fails unless both dates parse and `availableFrom <
availableUntil`, and unless at most 30 questions are given. A successful
`Quiz.create` runs the save hook. -/
def createQuiz (availableFrom availableUntil : Option Int)
    (questions : List Question) : Except String QuizDoc :=
  match availableFrom, availableUntil with
  | some fromD, some untilD =>
      if untilD ≤ fromD then .error "End date must be after start date"
      else if 30 < questions.length then
        .error "Maximum 30 questions allowed per quiz"
      else
        .ok (quizPreSave
          { questions := questions
            totalQuestions := 0
            totalPoints := 0
            isPublished := false
            publishedAt := none
            availableFrom := fromD
            availableUntil := some untilD })
  | _, _ => .error "Invalid date format"

/-- The update payload of `updateQuiz`, restricted to the fields the claims
depend on; `none` means the key is absent from the request body. -/
structure UpdateData where
  questions : Option (List Question)
  availableFrom : Option Int
  availableUntil : Option Int
deriving DecidableEq

/-- Model of `updateQuiz` from `quizController.js`: once a published quiz has
attempts, only the allow-listed fields (`title`, `description`,
`instructions`, `tags`, `availableUntil`, `isActive`) may change, so a
payload carrying `questions` or `availableFrom` is rejected; dates are
validated when either date key is present; at most 30 questions. The update
itself is `Quiz.findByIdAndUpdate`, which sets the given fields directly —
the `pre("save")` totals hook does not run. -/
def updateQuiz (q : QuizDoc) (attemptCount : Nat) (upd : UpdateData) :
    Except String QuizDoc :=
  if q.isPublished && 0 < attemptCount &&
      (upd.questions.isSome || upd.availableFrom.isSome) then
    .error "Cannot update certain fields after quiz has attempts"
  else if (upd.availableFrom.isSome || upd.availableUntil.isSome) &&
      (match upd.availableUntil <|> q.availableUntil with
       | some endD => decide (endD ≤ upd.availableFrom.getD q.availableFrom)
       | none => false) then
    .error "End date must be after start date"
  else if (match upd.questions with
           | some qs => decide (30 < qs.length)
           | none => false) then
    .error "Maximum 30 questions allowed per quiz"
  else
    .ok { q with
          questions := upd.questions.getD q.questions
          availableFrom := upd.availableFrom.getD q.availableFrom
          availableUntil := upd.availableUntil <|> q.availableUntil }

/-- The per-question incompleteness test of `publishQuiz`: a choice question
is incomplete when it has fewer than 2 options or a falsy `correctAnswer`
field; a true-false question when `correctAnswer` is undefined; a
short-answer question when `correctAnswer` is falsy or blank; any other type
is complete. Note that the options' `isCorrect` flags are never examined. -/
def questionIncomplete (q : Question) : Bool :=
  match q.qtype with
  | .multipleChoice | .singleChoice =>
      q.options.length < 2 || !(strTruthy q.correctAnswer)
  | .trueFalse => q.correctAnswer == none
  | .shortAnswer =>
      !(strTruthy q.correctAnswer) ||
        ((q.correctAnswer.getD "").trim == "")
  | .essay => false

/-- Model of `publishQuiz` from `quizController.js`: fails on a quiz with no
questions, or when any question is incomplete (`questionIncomplete`);
otherwise sets `isPublished = true`, stamps `publishedAt = now`, and saves
(running the totals hook). -/
def publishQuiz (q : QuizDoc) (now : Int) : Except String QuizDoc :=
  if q.questions.length == 0 then
    .error "Cannot publish quiz without questions"
  else if 0 < (q.questions.filter questionIncomplete).length then
    .error "Some questions are incomplete or invalid"
  else
    .ok (quizPreSave { q with isPublished := true, publishedAt := some now })

/-- Model of `addQuestion` from `quizController.js`: rejected when the quiz is
published and has attempts; the question must have non-blank text; the
switch on the question type enforces the per-type completeness rules
(`single/multiple-choice`: at least 2 options and a truthy `correctAnswer`;
`true-false`: a defined `correctAnswer`; `short-answer`: a non-blank
`correctAnswer`; any other type hits the `default` branch and is rejected);
at most 30 questions. On success the question is pushed and the quiz saved,
running the totals hook. -/
def addQuestion (q : QuizDoc) (attemptCount : Nat) (qd : Question) :
    Except String QuizDoc :=
  if q.isPublished && 0 < attemptCount then
    .error "Cannot add questions to a published quiz that has attempts"
  else if qd.text.trim == "" then
    .error "Question text is required"
  else
    match qd.qtype with
    | .multipleChoice | .singleChoice =>
        if qd.options.length < 2 || !(strTruthy qd.correctAnswer) then
          .error "Multiple/single choice questions require options and correct answer"
        else addQuestionPush q qd
    | .trueFalse =>
        if qd.correctAnswer == none then
          .error "True/False questions require correct answer"
        else addQuestionPush q qd
    | .shortAnswer =>
        if !(strTruthy qd.correctAnswer) || ((qd.correctAnswer.getD "").trim == "") then
          .error "Short answer questions require correct answer"
        else addQuestionPush q qd
    | .essay => .error "Invalid question type"
where
  /-- The tail of `addQuestion`: the 30-question cap, then push and save. -/
  addQuestionPush (q : QuizDoc) (qd : Question) : Except String QuizDoc :=
    if 30 ≤ q.questions.length then
      .error "Maximum 30 questions allowed per quiz"
    else
      .ok (quizPreSave { q with questions := q.questions ++ [qd] })

/-! ## Concrete fixtures used by witnesses and counterexamples -/

/-- A 5-point single-choice question whose correct option is "A". -/
def q1 : Question :=
  { qid := 1, text := "q1", qtype := QType.singleChoice,
    options := [{ text := "A", isCorrect := true }, { text := "B", isCorrect := false }],
    correctAnswer := some "A", points := 5 }

/-- A 5-point single-choice question whose correct option is "C". -/
def q2 : Question :=
  { qid := 2, text := "q2", qtype := QType.singleChoice,
    options := [{ text := "C", isCorrect := true }, { text := "D", isCorrect := false }],
    correctAnswer := some "C", points := 5 }

/-- A published, active quiz with two 5-point questions, passing score 70,
3 attempts allowed, available over the window [0, 100]. -/
def quizC1 : Quiz :=
  { passingScore := 70, maxAttempts := 3, availableFrom := 0,
    availableUntil := some 100, questions := [q1, q2],
    isPublished := true, isActive := true }

/-- An in-progress attempt of user 1 on quiz 1. -/
def att0 : Attempt :=
  { attemptId := 10, quizId := 1, userId := 1, attemptNumber := 1,
    status := AStatus.inProgress, answers := [], score := 0, totalPoints := 0,
    percentage := 0, isPassed := false }

/-- A submission answering `q1` correctly and `q2` wrongly. -/
def ansC1 : List AnswerIn :=
  [{ questionId := 1, selectedOptions := ["A"], shortAnswer := none },
   { questionId := 2, selectedOptions := ["D"], shortAnswer := none }]

/-- A 3-point multiple-choice question whose correct option texts are
{"A", "B"}. -/
def qC2 : Question :=
  { qid := 3, text := "c2", qtype := QType.multipleChoice,
    options := [{ text := "A", isCorrect := true }, { text := "B", isCorrect := true }],
    correctAnswer := none, points := 3 }

/-- The duplicate-selection answer `["A", "A"]` against `qC2`. -/
def ansDup : AnswerIn :=
  { questionId := 3, selectedOptions := ["A", "A"], shortAnswer := none }

/-- The order-swapped answer `["B", "A"]` against `qC2`. -/
def ansSwap : AnswerIn :=
  { questionId := 3, selectedOptions := ["B", "A"], shortAnswer := none }

/-- Variant of `quizC1` with its availability window already over (until time 5). -/
def quizC3 : Quiz := { quizC1 with availableUntil := some 5 }

/-- Variant of `quizC1` restricted to a single allowed attempt. -/
def quizC4 : Quiz := { quizC1 with maxAttempts := 1 }

/-- A completed attempt of user 1 on quiz 1. -/
def attDone : Attempt := { att0 with attemptId := 12, status := AStatus.completed }

/-- A valid 1-point short-answer question. -/
def qSmall : Question :=
  { qid := 9, text := "t", qtype := QType.shortAnswer, options := [],
    correctAnswer := some "yes", points := 1 }

/-- A single-choice question with two options, one flagged `isCorrect`, but
no `correctAnswer` field. -/
def qC7 : Question :=
  { qid := 4, text := "c7", qtype := QType.singleChoice,
    options := [{ text := "A", isCorrect := true }, { text := "B", isCorrect := false }],
    correctAnswer := none, points := 1 }

/-- An unpublished quiz document containing only `qC7`. -/
def quizDocC7 : QuizDoc :=
  { questions := [qC7], totalQuestions := 1, totalPoints := 1,
    isPublished := false, publishedAt := none,
    availableFrom := 0, availableUntil := some 100 }

/-- A valid 1-point true-false question. -/
def qTF : Question :=
  { qid := 8, text := "tf", qtype := QType.trueFalse, options := [],
    correctAnswer := some "true", points := 1 }

/-- An unpublished quiz document containing only the valid `qTF`. -/
def quizDocW : QuizDoc :=
  { questions := [qTF], totalQuestions := 1, totalPoints := 1,
    isPublished := false, publishedAt := none,
    availableFrom := 0, availableUntil := some 100 }

/-- A processed answer for question 1 that earned 0 points. -/
def pa0 : ProcessedAnswer :=
  { questionId := 1, selectedOptions := [], shortAnswer := none,
    isCorrect := false, pointsEarned := 0 }

/-- A processed answer, also for question 1, that earned 5 points. -/
def pa5 : ProcessedAnswer :=
  { questionId := 1, selectedOptions := [], shortAnswer := none,
    isCorrect := true, pointsEarned := 5 }

/-- A processed answer for question 2 that earned 0 points. -/
def pb0 : ProcessedAnswer :=
  { questionId := 2, selectedOptions := [], shortAnswer := none,
    isCorrect := false, pointsEarned := 0 }

/-- An attempt holding two answers with the same question id (earning 0 and
5 points) and a pre-set percentage of 37. -/
def attC9 : Attempt := { att0 with answers := [pa0, pa5], percentage := 37 }

/-- An attempt holding answers with distinct question ids earning 5 and 0
points, percentage pre-set to 37. -/
def attC9w : Attempt := { att0 with answers := [pa5, pb0], percentage := 37 }

/-! ## Helper lemmas -/

/-- The attempt pre-save hook is the identity on an attempt with no
answers. -/
theorem preSaveAttempt_no_answers (att : Attempt) (h : att.answers = []) :
    preSaveAttempt att = att := by
  simp [preSaveAttempt, h]

/-- The attempt pre-save hook never changes the answers, the status, the
score, or the `isPassed` flag. -/
theorem preSaveAttempt_preserves (att : Attempt) :
    (preSaveAttempt att).answers = att.answers ∧
    (preSaveAttempt att).status = att.status ∧
    (preSaveAttempt att).score = att.score ∧
    (preSaveAttempt att).isPassed = att.isPassed := by
  unfold preSaveAttempt
  by_cases h1 : 0 < att.answers.length
  · by_cases h2 : 0 < hookPossible att.answers
    · simp [h1, h2]
    · simp [h1, h2]
  · simp [h1]

/-! ## C8: status derivation precedence -/

/-- Claim C8. The derived quiz status follows the exact precedence: `disabled`
when inactive; else `draft` when unpublished; else `scheduled` when the
current time is before `availableFrom`; else `expired` when `availableUntil`
is set and the current time is after it; else `active`. In particular an
inactive quiz is `disabled` regardless of publish/date state, and an
unpublished-but-active quiz is `draft` regardless of dates. -/
theorem C8_status_precedence (quiz : Quiz) (now : Int) :
    (quiz.isActive = false → getQuizStatus quiz now = "disabled")
  ∧ (quiz.isActive = true → quiz.isPublished = false →
      getQuizStatus quiz now = "draft")
  ∧ (quiz.isActive = true → quiz.isPublished = true →
      now < quiz.availableFrom → getQuizStatus quiz now = "scheduled")
  ∧ (quiz.isActive = true → quiz.isPublished = true →
      quiz.availableFrom ≤ now → ∀ u, quiz.availableUntil = some u →
      u < now → getQuizStatus quiz now = "expired")
  ∧ (quiz.isActive = true → quiz.isPublished = true →
      quiz.availableFrom ≤ now →
      (∀ u, quiz.availableUntil = some u → now ≤ u) →
      getQuizStatus quiz now = "active") := by
  refine ⟨?_, ?_, ?_, ?_, ?_⟩
  · intro h1
    simp [getQuizStatus, h1]
  · intro h1 h2
    simp [getQuizStatus, h1, h2]
  · intro h1 h2 h3
    simp [getQuizStatus, h1, h2, h3]
  · intro h1 h2 h3 u hu h4
    simp [getQuizStatus, h1, h2, hu, not_lt.mpr h3, h4]
  · intro h1 h2 h3 h4
    cases hu : quiz.availableUntil with
    | none => simp [getQuizStatus, h1, h2, hu, not_lt.mpr h3]
    | some u =>
        have := h4 u hu
        simp [getQuizStatus, h1, h2, hu, not_lt.mpr h3, not_lt.mpr this]

/-- Witness for C8 at a concrete quiz and time: `quizC1` at time 50 is
`active`. -/
theorem C8_status_precedence_witness : getQuizStatus quizC1 50 = "active" := by
  refine (C8_status_precedence quizC1 50).2.2.2.2 rfl rfl (by decide) ?_
  intro u hu
  have h : quizC1.availableUntil = some 100 := rfl
  rw [h] at hu
  injection hu with h2
  omega

/-! ## C3: start-attempt and the availability window -/

/-- Claim C3, counterexample. A published, active quiz whose availability window
is already over (derived status `expired` at time 10) still lets
`startQuizAttempt` create a fresh attempt record: the availability window is
not checked at start, contradicting the claim that an out-of-window start
fails and creates no attempt. -/
theorem C3_window_not_checked_counterexample :
    getQuizStatus quizC3 10 = "expired" ∧
    (startQuizAttempt [] (some quizC3) 1 1 7).2.length = 1 ∧
    (startQuizAttempt [] (some quizC3) 1 1 7).1 ≠
      StartResult.error "Quiz is not available" := by
  refine ⟨rfl, rfl, ?_⟩
  intro h
  simp [startQuizAttempt, quizC3, quizC1, attemptsFor, findInProgress] at h

/-- Claim C3, amended. Start-attempt's availability check tests only
`isActive` and `isPublished`: an inactive or unpublished quiz makes start
fail with "Quiz is not available" and leaves the attempt collection
unchanged, while for an active, published quiz with remaining attempts and
no in-progress attempt, start creates a new attempt — with no condition on
the availability window or the current time (which start never reads). -/
theorem C3_start_checks_only_active_published (attempts : List Attempt)
    (quiz : Quiz) (quizId userId newId : Nat) :
    (quiz.isActive = false ∨ quiz.isPublished = false →
      startQuizAttempt attempts (some quiz) quizId userId newId =
        (StartResult.error "Quiz is not available", attempts))
  ∧ (quiz.isActive = true → quiz.isPublished = true →
      (attemptsFor attempts quizId userId).length < quiz.maxAttempts →
      findInProgress attempts quizId userId = none →
      ∃ a, startQuizAttempt attempts (some quiz) quizId userId newId =
        (StartResult.created a, attempts ++ [a])) := by
  constructor
  · intro h
    have hb : (!quiz.isActive || !quiz.isPublished) = true := by
      rcases h with h | h <;> simp [h]
    simp [startQuizAttempt, hb]
  · intro hA hP hMax hIP
    have hb : (!quiz.isActive || !quiz.isPublished) = false := by
      simp [hA, hP]
    refine ⟨preSaveAttempt
      { attemptId := newId, quizId := quizId, userId := userId,
        attemptNumber := (attemptsFor attempts quizId userId).length + 1,
        status := AStatus.inProgress, answers := [], score := 0,
        totalPoints := 0, percentage := 0, isPassed := false }, ?_⟩
    simp only [startQuizAttempt, hb, Bool.false_eq_true, if_false, hIP]
    rw [if_neg (by omega)]

/-- Witness for C3 (amended): starting on the expired-window `quizC3` with an
empty attempt collection creates one attempt. -/
theorem C3_start_checks_only_active_published_witness :
    (startQuizAttempt [] (some quizC3) 1 1 7).2.length = 1 := by
  obtain ⟨a, ha⟩ :=
    (C3_start_checks_only_active_published [] quizC3 1 1 7).2 rfl rfl
      (by decide) rfl
  rw [ha]
  simp

/-! ## C4: idempotency of start while in progress -/

/-- Claim C4, counterexample. With `maxAttempts = 1` and an in-progress attempt
on record, a second start call does not resume that attempt: the
max-attempts check runs first and counts the in-progress attempt, so the
call fails with the max-attempts error instead of returning the same
attempt. -/
theorem C4_resume_blocked_at_max_counterexample :
    att0.status = AStatus.inProgress ∧ att0.quizId = 1 ∧ att0.userId = 1 ∧
    quizC4.maxAttempts = 1 ∧ quizC4.isActive = true ∧
    quizC4.isPublished = true ∧
    (startQuizAttempt [att0] (some quizC4) 1 1 11).1 =
      StartResult.error "Maximum attempts (1) reached for this quiz" ∧
    (startQuizAttempt [att0] (some quizC4) 1 1 11).1 ≠
      StartResult.resumed att0 := by
  refine ⟨rfl, rfl, rfl, rfl, rfl, rfl, rfl, ?_⟩
  intro h
  rw [show (startQuizAttempt [att0] (some quizC4) 1 1 11).1 =
      StartResult.error "Maximum attempts (1) reached for this quiz" from rfl]
    at h
  exact StartResult.noConfusion h

/-- Claim C4, amended. Start-attempt is idempotent while an in-progress
attempt exists, provided the quiz is active and published and the user's
total attempt count is still below `maxAttempts`: the call returns that same
attempt and leaves the attempt collection unchanged. (When the count has
reached `maxAttempts`, the call instead fails with the max-attempts error,
as the counterexample shows.) -/
theorem C4_start_idempotent_below_max (attempts : List Attempt) (quiz : Quiz)
    (quizId userId newId : Nat) (a : Attempt)
    (hA : quiz.isActive = true) (hP : quiz.isPublished = true)
    (hMax : (attemptsFor attempts quizId userId).length < quiz.maxAttempts)
    (hIP : findInProgress attempts quizId userId = some a) :
    startQuizAttempt attempts (some quiz) quizId userId newId =
      (StartResult.resumed a, attempts) := by
  have hb : (!quiz.isActive || !quiz.isPublished) = false := by
    simp [hA, hP]
  simp only [startQuizAttempt, hb, Bool.false_eq_true, if_false, hIP]
  rw [if_neg (by omega)]

/-- Witness for C4 (amended): with 3 attempts allowed and one in-progress
attempt on record, start resumes that same attempt. -/
theorem C4_start_idempotent_below_max_witness :
    startQuizAttempt [att0] (some quizC1) 1 1 11 =
      (StartResult.resumed att0, [att0]) :=
  C4_start_idempotent_below_max [att0] quizC1 1 1 11 att0 rfl rfl
    (by decide) rfl

/-! ## C5: max-attempts limit and attempt numbering -/

/-- Claim C5. Assuming every recorded attempt of the user for the quiz is
in-progress or completed (the only statuses this codebase ever writes), once
the user's completed-or-in-progress attempt count equals `maxAttempts`,
start fails with an error and creates no attempt record; and whenever start
does create an attempt, its `attemptNumber` is that count plus one. -/
theorem C5_max_attempts_and_numbering (attempts : List Attempt) (quiz : Quiz)
    (quizId userId newId : Nat)
    (hst : ∀ a ∈ attemptsFor attempts quizId userId,
      a.status = AStatus.inProgress ∨ a.status = AStatus.completed) :
    (((attemptsFor attempts quizId userId).filter (fun a =>
        a.status == AStatus.inProgress || a.status == AStatus.completed)).length =
          quiz.maxAttempts →
      (∃ msg, (startQuizAttempt attempts (some quiz) quizId userId newId).1 =
        StartResult.error msg) ∧
      (startQuizAttempt attempts (some quiz) quizId userId newId).2 = attempts)
  ∧ (∀ a st, startQuizAttempt attempts (some quiz) quizId userId newId =
        (StartResult.created a, st) →
      a.attemptNumber =
        ((attemptsFor attempts quizId userId).filter (fun a =>
          a.status == AStatus.inProgress || a.status == AStatus.completed)).length
          + 1 ∧
      st = attempts ++ [a]) := by
  have hfix : (attemptsFor attempts quizId userId).filter (fun a =>
      a.status == AStatus.inProgress || a.status == AStatus.completed) =
      attemptsFor attempts quizId userId := by
    apply List.filter_eq_self.mpr
    intro a ha
    rcases hst a ha with h | h <;> simp [h]
  constructor
  · intro hcount
    rw [hfix] at hcount
    cases hb : (!quiz.isActive || !quiz.isPublished) with
    | true =>
        simp only [startQuizAttempt, hb, if_true]
        exact ⟨⟨_, rfl⟩, by trivial⟩
    | false =>
        simp only [startQuizAttempt, hb, Bool.false_eq_true, if_false]
        rw [if_pos (by omega)]
        exact ⟨⟨_, rfl⟩, by trivial⟩
  · intro a st h
    rw [hfix]
    revert h
    cases hb : (!quiz.isActive || !quiz.isPublished) with
    | true =>
        simp only [startQuizAttempt, hb, if_true]
        intro h
        simp at h
    | false =>
        simp only [startQuizAttempt, hb, Bool.false_eq_true, if_false]
        by_cases hm : quiz.maxAttempts ≤ (attemptsFor attempts quizId userId).length
        · rw [if_pos hm]
          intro h
          simp at h
        · rw [if_neg hm]
          cases hip : findInProgress attempts quizId userId with
          | some b =>
              simp only [hip]
              intro h
              simp at h
          | none =>
              simp only [hip]
              rw [preSaveAttempt_no_answers _ rfl]
              intro h
              simp only [Prod.mk.injEq] at h
              obtain ⟨h1, h2⟩ := h
              injection h1 with h1
              subst h1
              exact ⟨rfl, h2.symm⟩

/-- Witness for C5: the completed attempt `attDone` uses up the single
allowed attempt of `quizC4`, so a further start leaves the collection
unchanged. -/
theorem C5_max_attempts_and_numbering_witness :
    (startQuizAttempt [attDone] (some quizC4) 1 1 11).2 = [attDone] :=
  ((C5_max_attempts_and_numbering [attDone] quizC4 1 1 11 (by decide)).1
    (by decide)).2

/-! ## C10: submit error conditions -/

/-- On a quiz whose graded-by-comparison questions (true-false and
short-answer) all carry a `correctAnswer` — which the attempt schema
requires — answer processing never throws: it returns the graded answers,
whose question ids are exactly those submitted ids that match a question of
the quiz. -/
theorem processAnswers_ok (quiz : Quiz)
    (hwf : ∀ q ∈ quiz.questions,
      q.qtype = QType.trueFalse ∨ q.qtype = QType.shortAnswer →
      q.correctAnswer ≠ none) :
    ∀ answers : List AnswerIn, ∃ ps total,
      processAnswers quiz answers = Except.ok (ps, total) ∧
      ps.map (fun p => p.questionId) =
        (answers.filter (fun a =>
          (findQuestion quiz a.questionId).isSome)).map
          (fun a => a.questionId) := by
  intro answers
  induction answers with
  | nil => exact ⟨[], 0, rfl, rfl⟩
  | cons a rest ih =>
      obtain ⟨ps, total, hok, hmap⟩ := ih
      cases hq : findQuestion quiz a.questionId with
      | none =>
          refine ⟨ps, total, ?_, ?_⟩
          · simp only [processAnswers, hq, hok]
          · simp [List.filter_cons, hq, hmap]
      | some q =>
          have hmem : q ∈ quiz.questions :=
            List.mem_of_find?_eq_some hq
          have hgrade : ∃ r, gradeAnswer q a = Except.ok r := by
            unfold gradeAnswer
            cases hty : q.qtype
            case singleChoice => exact ⟨_, rfl⟩
            case multipleChoice => exact ⟨_, rfl⟩
            case essay => exact ⟨_, rfl⟩
            case trueFalse =>
                cases hca : q.correctAnswer with
                | none => exact absurd hca (hwf q hmem (Or.inl hty))
                | some ca => exact ⟨_, rfl⟩
            case shortAnswer =>
                cases hca : q.correctAnswer with
                | none => exact absurd hca (hwf q hmem (Or.inr hty))
                | some ca => exact ⟨_, rfl⟩
          obtain ⟨⟨ok, pts⟩, hg⟩ := hgrade
          refine ⟨{ questionId := a.questionId
                    selectedOptions := a.selectedOptions
                    shortAnswer := a.shortAnswer
                    isCorrect := ok
                    pointsEarned := pts } :: ps, pts + total, ?_, ?_⟩
          · simp only [processAnswers, hq, hg, hok]
          · simp [List.filter_cons, hq, hmap]

/-- Claim C10. Submission fails exactly when there is no in-progress attempt
for the (quiz, user) pair or the quiz is missing; any existing in-progress
attempt is completed and scored unconditionally — no availability-window,
duration or max-attempts condition appears — and submitted answers whose
question id matches no question of the quiz are silently dropped from the
stored answers rather than rejected. (Hypothesis: the quiz's true-false and
short-answer questions carry a `correctAnswer`, as the schema requires.) -/
theorem C10_submit_error_conditions (attempts : List Attempt)
    (quiz? : Option Quiz) (quizId userId : Nat) (answers : List AnswerIn)
    (hwf : ∀ quiz, quiz? = some quiz → ∀ q ∈ quiz.questions,
      q.qtype = QType.trueFalse ∨ q.qtype = QType.shortAnswer →
      q.correctAnswer ≠ none) :
    ((∃ e, submitQuizAttempt attempts quiz? quizId userId answers =
        Except.error e) ↔
      (findInProgress attempts quizId userId = none ∨ quiz? = none))
  ∧ (∀ quiz st saved pct, quiz? = some quiz →
      submitQuizAttempt attempts quiz? quizId userId answers =
        Except.ok (st, saved, pct) →
      saved.status = AStatus.completed ∧
      saved.answers.map (fun p => p.questionId) =
        (answers.filter (fun a =>
          (findQuestion quiz a.questionId).isSome)).map
          (fun a => a.questionId)) := by
  cases hip : findInProgress attempts quizId userId with
  | none =>
      have hsub : submitQuizAttempt attempts quiz? quizId userId answers =
          Except.error "No active quiz attempt found" := by
        simp only [submitQuizAttempt, hip]
      refine ⟨⟨fun _ => Or.inl rfl, fun _ => ⟨_, hsub⟩⟩, ?_⟩
      intro quiz st saved pct hq h
      rw [hsub] at h
      exact Except.noConfusion h
  | some att =>
      cases hq? : quiz? with
      | none =>
          have hsub : submitQuizAttempt attempts none quizId userId answers =
              Except.error "Quiz not found" := by
            simp only [submitQuizAttempt, hip]
          refine ⟨⟨fun _ => Or.inr rfl, fun _ => ⟨_, hsub⟩⟩, ?_⟩
          intro quiz st saved pct hq h
          exact Option.noConfusion hq
      | some quiz =>
          obtain ⟨ps, total, hok, hmap⟩ :=
            processAnswers_ok quiz (hwf quiz hq?) answers
          constructor
          · constructor
            · rintro ⟨e, he⟩
              simp only [submitQuizAttempt, hip, hok] at he
              exact Except.noConfusion he
            · rintro (h | h) <;> exact Option.noConfusion h
          · intro quiz2 st saved pct hq h
            injection hq with hq
            subst hq
            simp only [submitQuizAttempt, hip, hok] at h
            injection h with h
            simp only [Prod.mk.injEq] at h
            obtain ⟨h1, h2, h3⟩ := h
            subst h2
            refine ⟨?_, ?_⟩
            · rw [(preSaveAttempt_preserves _).2.1]
            · rw [(preSaveAttempt_preserves _).1]
              exact hmap

/-! ## C2: choice-question grading -/

/-- When neither the submitted selection nor the correct-option texts
contain duplicates, the grading test (equal lengths plus membership of every
submitted text) is exactly set equality of the two text sets. -/
theorem gradeChoice_iff_toFinset (q : Question) (sel : List String)
    (hnd1 : sel.Nodup) (hnd2 : (correctOptionTexts q).Nodup) :
    gradeChoice q sel = true ↔
      sel.toFinset = (correctOptionTexts q).toFinset := by
  unfold gradeChoice
  rw [Bool.and_eq_true, beq_iff_eq, List.all_eq_true]
  constructor
  · rintro ⟨hlen, hsub⟩
    apply Finset.eq_of_subset_of_card_le
    · intro x hx
      rw [List.mem_toFinset] at hx
      rw [List.mem_toFinset]
      simpa using hsub x hx
    · rw [List.toFinset_card_of_nodup hnd1, List.toFinset_card_of_nodup hnd2]
      exact le_of_eq hlen.symm
  · intro heq
    constructor
    · rw [← List.toFinset_card_of_nodup hnd1,
        ← List.toFinset_card_of_nodup hnd2, heq]
    · intro x hx
      have hmem : x ∈ (correctOptionTexts q).toFinset :=
        heq ▸ List.mem_toFinset.mpr hx
      rw [List.mem_toFinset] at hmem
      simpa using hmem

/-- Claim C2, counterexample. Against the multiple-choice question `qC2` whose
correct option texts are `["A", "B"]`, the duplicate submission
`["A", "A"]` is graded correct with full points, although its set of
selected texts `{A}` is not equal to the correct set `{A, B}`: the grading
test (length equality plus membership) is not set equality. -/
theorem C2_duplicate_selection_counterexample :
    gradeAnswer qC2 ansDup = Except.ok (true, 3) ∧
    ansDup.selectedOptions.toFinset ≠ (correctOptionTexts qC2).toFinset := by
  refine ⟨rfl, ?_⟩
  intro h
  have hb : "B" ∈ ansDup.selectedOptions.toFinset := by
    rw [h]
    decide
  revert hb
  decide

/-- Claim C2, amended. For a single- or multiple-choice question, a submitted
answer is graded correct exactly when the submitted option-text list has the
same length as the list of texts of options marked `isCorrect` and every
submitted text occurs among them; when neither list contains duplicates this
coincides with order-independent set equality. A correct answer earns the
question's full point value, any other earns zero. -/
theorem C2_choice_grading (q : Question) (a : AnswerIn)
    (hty : q.qtype = QType.singleChoice ∨ q.qtype = QType.multipleChoice)
    (hnd1 : a.selectedOptions.Nodup)
    (hnd2 : (correctOptionTexts q).Nodup) :
    ∀ ok pts, gradeAnswer q a = Except.ok (ok, pts) →
      (ok = true ↔
        a.selectedOptions.toFinset = (correctOptionTexts q).toFinset) ∧
      pts = if ok then q.points else 0 := by
  intro ok pts h
  have hg : gradeAnswer q a =
      Except.ok (gradeChoice q a.selectedOptions,
        if gradeChoice q a.selectedOptions then q.points else 0) := by
    rcases hty with hty | hty <;> simp [gradeAnswer, hty]
  rw [hg] at h
  injection h with h
  simp only [Prod.mk.injEq] at h
  obtain ⟨h1, h2⟩ := h
  subst h1
  subst h2
  exact ⟨gradeChoice_iff_toFinset q a.selectedOptions hnd1 hnd2, rfl⟩

/-- Witness for C2 (amended): the order-swapped submission `["B", "A"]`
against correct texts `["A", "B"]` is graded correct, and its selected-text
set equals the correct set. -/
theorem C2_choice_grading_witness :
    ansSwap.selectedOptions.toFinset = (correctOptionTexts qC2).toFinset :=
  ((C2_choice_grading qC2 ansSwap (Or.inr rfl) (by decide) (by decide))
    true 3 rfl).1.mp rfl

/-! ## C9: the attempt pre-save hook's scoring -/

/-- Unfolded form of the attempt pre-save hook on a non-empty answer list. -/
theorem preSaveAttempt_spec (att : Attempt) (h : 0 < att.answers.length) :
    preSaveAttempt att =
      if 0 < hookPossible att.answers then
        { att with
          totalPoints := earnedSum att.answers
          percentage := (jsRound ((earnedSum att.answers : Rat) /
            (hookPossible att.answers : Rat) * 100) : Rat) }
      else { att with totalPoints := earnedSum att.answers } := by
  simp only [preSaveAttempt]
  rw [if_pos h]

/-- When the answers carry pairwise-distinct question ids, the hook's inner
`find` returns each answer itself. -/
theorem find_qid_self (l : List ProcessedAnswer)
    (hnd : (l.map (fun a => a.questionId)).Nodup) :
    ∀ a ∈ l, l.find? (fun b => b.questionId == a.questionId) = some a := by
  induction l with
  | nil =>
      intro a ha
      cases ha
  | cons c t ih =>
      intro a ha
      rw [List.map_cons, List.nodup_cons] at hnd
      obtain ⟨hc, ht⟩ := hnd
      rcases List.mem_cons.mp ha with rfl | hat
      · rw [List.find?_cons_of_pos]
        simp
      · have hne : (c.questionId == a.questionId) = false := by
          rw [beq_eq_false_iff_ne]
          intro heq
          exact hc (heq ▸ List.mem_map_of_mem (fun a => a.questionId) hat)
        rw [List.find?_cons_of_neg _ (by simp [hne]), ih ht a hat]

/-- With pairwise-distinct question ids, the hook's "total possible points"
collapses to the earned-point sum itself. -/
theorem hookPossible_eq_earnedSum (l : List ProcessedAnswer)
    (hnd : (l.map (fun a => a.questionId)).Nodup) :
    hookPossible l = earnedSum l := by
  unfold hookPossible earnedSum
  apply congrArg List.sum
  apply List.map_congr_left
  intro a ha
  rw [find_qid_self l hnd a ha]

/-- Claim C9, counterexample. An attempt holding two answers with the *same*
question id, earning 0 and 5 points, has a positive earned-point sum, yet
the pre-save hook leaves its percentage at the pre-set 37 instead of 100:
the hook's "total possible points" picks the first answer with each id
(0 points twice), so the overwrite is skipped. -/
theorem C9_duplicate_question_ids_counterexample :
    0 < earnedSum attC9.answers ∧
    (preSaveAttempt attC9).percentage = 37 ∧ ((37 : Rat) ≠ 100) := by
  refine ⟨by decide, rfl, by norm_num⟩

/-- Claim C9, amended. Whenever a quiz attempt with a non-empty answer list
is saved, the hook sets the persisted `totalPoints` to the sum of
`pointsEarned` over its answers; and when the answers' question ids are
pairwise distinct (as produced by a normal submission), the "total possible
points" collapses to the same sum, so every such attempt whose earned-point
sum is positive gets its percentage overwritten with exactly 100. -/
theorem C9_presave_totals (att : Attempt) (h : att.answers ≠ []) :
    (preSaveAttempt att).totalPoints = earnedSum att.answers ∧
    ((att.answers.map (fun a => a.questionId)).Nodup →
      0 < earnedSum att.answers →
      (preSaveAttempt att).percentage = 100) := by
  have hlen : 0 < att.answers.length := List.length_pos.mpr h
  rw [preSaveAttempt_spec att hlen]
  constructor
  · by_cases h2 : 0 < hookPossible att.answers
    · rw [if_pos h2]
    · rw [if_neg h2]
  · intro hnd hpos
    have hpe : hookPossible att.answers = earnedSum att.answers :=
      hookPossible_eq_earnedSum att.answers hnd
    have h2 : 0 < hookPossible att.answers := by omega
    rw [if_pos h2]
    show (jsRound ((earnedSum att.answers : Rat) /
      (hookPossible att.answers : Rat) * 100) : Rat) = 100
    rw [hpe]
    have he : (earnedSum att.answers : Rat) ≠ 0 := by
      exact_mod_cast Nat.pos_iff_ne_zero.mp hpos
    rw [div_self he, one_mul]
    norm_num [jsRound]

/-- Witness for C9 (amended): on an attempt with two distinct-id answers
earning 5 and 0 points and percentage pre-set to 37, the hook persists
`totalPoints = 5` and overwrites the percentage with 100. -/
theorem C9_presave_totals_witness :
    (preSaveAttempt attC9w).totalPoints = earnedSum attC9w.answers ∧
    (preSaveAttempt attC9w).percentage = 100 := by
  have h := C9_presave_totals attC9w (by decide)
  exact ⟨h.1, h.2 (by decide) (by decide)⟩

/-! ## C1: submission percentage and isPassed -/

/-- Claim C1, code bug. At the failing input — quiz `quizC1` with two 5-point
questions and passing score 70, answers scoring 5 of 10 — the controller
computes `percentage = 5/10*100 = 50` and `isPassed = false`, but the
attempt pre-save hook then recomputes "total possible points" from the
answers' own `pointsEarned` (5) and overwrites the persisted percentage
with 100. Both the persisted attempt and the caller's summary report
percentage 100 rather than 50, and the persisted record has
`percentage ≥ passingScore` while `isPassed = false`. -/
theorem C1_presave_hook_corrupts_percentage :
    (submitQuizAttempt [att0] (some quizC1) 1 1 ansC1).map
        (fun r => (r.2.1.percentage, r.2.1.isPassed, r.2.2)) =
      Except.ok (100, false, 100) ∧
    (5 : Rat) / 10 * 100 = 50 ∧ ((100 : Rat) ≠ 50) ∧
    quizC1.passingScore ≤ 100 := by
  refine ⟨?_, by norm_num, by norm_num, ?_⟩
  · have hip : findInProgress [att0] 1 1 = some att0 := rfl
    have hok : processAnswers quizC1 ansC1 = Except.ok
        ([{ questionId := 1, selectedOptions := ["A"], shortAnswer := none,
            isCorrect := true, pointsEarned := 5 },
          { questionId := 2, selectedOptions := ["D"], shortAnswer := none,
            isCorrect := false, pointsEarned := 0 }], 5) := rfl
    simp only [submitQuizAttempt, hip, hok, Except.map]
    norm_num [preSaveAttempt, hookPossible, earnedSum, jsRound,
      quizC1, q1, q2, att0]
  · show (70 : Rat) ≤ 100
    norm_num

/-! ## C6: quiz totals invariant across create / update / add-question -/

/-- Claim C6, code bug. A quiz created with one 1-point question carries
`totalQuestions = 1, totalPoints = 1`; updating it with two 5-point
questions goes through `findByIdAndUpdate`, which does not run the
`pre("save")` totals hook, so the stored totals remain `(1, 1)` while the
question list now has length 2 and point sum 10 — the claimed invariant
fails after update. -/
theorem C6_update_bypasses_totals_hook :
    ((createQuiz (some 0) (some 100) [qSmall]).bind
        (fun q => updateQuiz q 0
          { questions := some [q1, q2], availableFrom := none,
            availableUntil := none })).map
      (fun q => (q.questions.length, q.totalQuestions,
        (q.questions.map (fun x => x.points)).sum, q.totalPoints)) =
      Except.ok (2, 1, 10, 1) ∧
    (2 : Nat) ≠ 1 ∧ (10 : Nat) ≠ 1 := by
  exact ⟨rfl, by decide, by decide⟩

/-! ## C7: publish validation -/

/-- Claim C7, counterexample. `quizDocC7` holds a single-choice question with
two options of which one is marked `isCorrect`, but whose `correctAnswer`
field is undefined: the claim says such a quiz publishes, yet `publishQuiz`
rejects it, because the code checks the `correctAnswer` field's truthiness
and never the options' `isCorrect` flags. -/
theorem C7_option_marked_correct_rejected :
    2 ≤ qC7.options.length ∧
    (qC7.options.filter (fun o => o.isCorrect)).length = 1 ∧
    publishQuiz quizDocC7 50 =
      Except.error "Some questions are incomplete or invalid" := by
  exact ⟨by decide, rfl, rfl⟩

/-- Claim C7, amended. Publishing fails on a quiz with zero questions, and on
any quiz with a question that is incomplete for its type, where a
choice-type question is incomplete when it has fewer than 2 options or a
falsy `correctAnswer` field (the options' `isCorrect` flags are not
examined); when every question is complete, publishing succeeds, sets
`isPublished = true` and stamps `publishedAt` with the current time. -/
theorem C7_publish_validation (q : QuizDoc) (now : Int) :
    (q.questions = [] →
      publishQuiz q now = Except.error "Cannot publish quiz without questions")
  ∧ ((∃ qq ∈ q.questions, questionIncomplete qq = true) →
      publishQuiz q now =
        Except.error "Some questions are incomplete or invalid")
  ∧ ((∀ qq ∈ q.questions, questionIncomplete qq = false) →
      q.questions ≠ [] →
      ∃ q2, publishQuiz q now = Except.ok q2 ∧ q2.isPublished = true ∧
        q2.publishedAt = some now ∧ q2.questions = q.questions)
  ∧ (∀ qq : Question,
      qq.qtype = QType.singleChoice ∨ qq.qtype = QType.multipleChoice →
      (questionIncomplete qq = false ↔
        2 ≤ qq.options.length ∧ strTruthy qq.correctAnswer = true)) := by
  refine ⟨?_, ?_, ?_, ?_⟩
  · intro h
    simp [publishQuiz, h]
  · rintro ⟨qq, hm, hinc⟩
    have h0 : (q.questions.length == 0) = false := by
      rw [beq_eq_false_iff_ne]
      intro hlen
      rw [List.length_eq_zero] at hlen
      rw [hlen] at hm
      cases hm
    have hfl : 0 < (q.questions.filter questionIncomplete).length := by
      apply List.length_pos.mpr
      intro hnil
      have hmem := List.mem_filter.mpr ⟨hm, hinc⟩
      rw [hnil] at hmem
      cases hmem
    unfold publishQuiz
    rw [if_neg (by simp [h0]), if_pos hfl]
  · intro hall hne
    have h0 : (q.questions.length == 0) = false := by
      rw [beq_eq_false_iff_ne]
      intro hlen
      exact hne (List.length_eq_zero.mp hlen)
    have hfl : (q.questions.filter questionIncomplete) = [] := by
      apply List.filter_eq_nil_iff.mpr
      intro a ha
      simp [hall a ha]
    refine ⟨quizPreSave { q with isPublished := true, publishedAt := some now },
      ?_, rfl, rfl, rfl⟩
    unfold publishQuiz
    rw [if_neg (by simp [h0]), if_neg (by simp [hfl])]
  · intro qq hty
    rcases hty with hty | hty <;>
      simp only [questionIncomplete, hty, Bool.or_eq_false_iff,
        Bool.not_eq_false', decide_eq_false_iff_not, not_lt]

/-- Witness for C7 (amended): publishing `quizDocW`, whose only question is
a complete true-false question, succeeds and stamps `publishedAt = 9`. -/
theorem C7_publish_validation_witness :
    (publishQuiz quizDocW 9).map (fun q => (q.isPublished, q.publishedAt)) =
      Except.ok (true, some 9) := by
  obtain ⟨q2, hq, h1, h2, h3⟩ :=
    (C7_publish_validation quizDocW 9).2.2.1 (by decide) (by decide)
  rw [hq]
  simp [Except.map, h1, h2]

/-! ## C10 witness -/

/-- Witness for C10: submitting `ansC1` on `quizC1` with the in-progress
attempt `att0` on record does not fail. -/
theorem C10_submit_error_conditions_witness :
    ¬ (∃ e, submitQuizAttempt [att0] (some quizC1) 1 1 ansC1 =
      Except.error e) := by
  intro he
  have h := (C10_submit_error_conditions [att0] (some quizC1) 1 1 ansC1
    (by intro quiz hq q hmem hty
        injection hq with hq
        subst hq
        have hqs : quizC1.questions = [q1, q2] := rfl
        rw [hqs] at hmem
        rcases List.mem_cons.mp hmem with rfl | hmem2
        · rcases hty with h | h <;> exact absurd h (by decide)
        · rcases List.mem_cons.mp hmem2 with rfl | hmem3
          · rcases hty with h | h <;> exact absurd h (by decide)
          · cases hmem3)).1.mp he
  have hip : findInProgress [att0] 1 1 = some att0 := rfl
  rcases h with h | h
  · rw [hip] at h
    exact Option.noConfusion h
  · exact Option.noConfusion h

end Shekhai
